import Mathlib

/-!
Shallow embedding of the GameEngineSocket entity-state synchronization core:
the pure interpolator (`lerp`, `interpolateState` from `logic/interpolation.ts`)
and the per-binding engine of the `useNetworkEntity` hook
(`hooks/useNetworkEntity.ts`): the inbound `onEntityUpdate` subscriber, the
Owner broadcast interval, the Observer render loop `animate`, and the public
mutator `setNetworkState`.

JavaScript numbers are modelled as rationals, JS objects
(`Record<string, any>`) as association lists with unique keys in enumeration
order, absent properties / `undefined` / `null` as `Option.none`, and a thrown
`TypeError` as `Except.error`.
-/

namespace GameEngineSocket

/-- A JavaScript field value: a number (modelled as a rational) or any
non-numeric value (string, boolean, nested object, ...), kept opaque since the
code only ever tests `typeof v === 'number'`. -/
inductive Value where
  | num (q : ℚ)
  | other (tag : String)
deriving DecidableEq, Repr

/-- A JS object `Record<string, any>`: fields in `for...in` enumeration order.
A genuine JS object has unique keys (`List.Nodup` on the key list). -/
abbrev EntityState := List (String × Value)

/-- Well-formedness of an `EntityState` as a JS object: no duplicate keys. -/
abbrev WFState (s : EntityState) : Prop := (s.map Prod.fst).Nodup

/-- JS property read `s[k]`: the value at key `k`, or `none` (JS `undefined`)
when the property is absent. -/
def getField : EntityState → String → Option Value
  | [], _ => none
  | (k', v) :: rest, k => if k' = k then some v else getField rest k

/-- JS property write `s[k] = v`: replaces the existing binding for `k`, or
appends a new field at the end (JS insertion order). -/
def setField : EntityState → String → Value → EntityState
  | [], k, v => [(k, v)]
  | (k', v') :: rest, k, v =>
      if k' = k then (k, v) :: rest else (k', v') :: setField rest k v

/-- `lerp` (`logic/interpolation.ts` lines 1-3):
`lerp(start, end, t) = start * (1 - t) + end * t`. -/
def lerp (start stop t : ℚ) : ℚ := start * (1 - t) + stop * t

/-- The per-field computation inside `interpolateState`'s loop: when both
`targetState[key]` and `currentState[key]` are numbers the field is lerped,
otherwise it is snapped to `targetState[key]`. -/
def snapOrLerp (cv : Option Value) (tv : Value) (t : ℚ) : Value :=
  match tv, cv with
  | .num b, some (.num a) => .num (lerp a b t)
  | tv, _ => tv

/-- `interpolateState(currentState, targetState, t)` (`logic/interpolation.ts`
lines 7-19): the result starts as a copy of `currentState`
(`const result = { ...currentState }`) and then the loop
`for (const key in targetState)` writes every field of `targetState` over it,
lerped when both sides are numeric and snapped to the target value
otherwise. -/
def interpolateState (currentState targetState : EntityState) (t : ℚ) : EntityState :=
  targetState.foldl
    (fun result kv => setField result kv.1 (snapOrLerp (getField currentState kv.1) kv.2 t))
    currentState

/-- The guard `typeof targetState[key] === 'number' &&
typeof currentState[key] === 'number'` of `interpolateState`'s loop. -/
def bothNumeric (cv : Option Value) (tv : Value) : Bool :=
  match tv, cv with
  | .num _, some (.num _) => true
  | _, _ => false

/-- The wire payload `{ entityId, state }` of an `entity:update` event; a
malformed inbound event may lack either property. -/
structure EntityUpdatePayload (T : Type) where
  entityId : Option String
  state : Option T

/-- The transport envelope `CustomEvent` (`types.ts` lines 121-127):
`{ roomId, from, event, payload, ts }`.  `sender` models the `from` property
(`from` is reserved in Lean); `payload` may be absent in a malformed event. -/
structure CustomEvent (T : Type) where
  roomId : String
  sender : String
  event : String
  payload : Option (EntityUpdatePayload T)
  ts : ℚ

/-- The per-binding state of `useNetworkEntity` (`hooks/useNetworkEntity.ts`):
the configuration options together with the React `useState` cell and the three
refs.  Cells that JavaScript can hold as `undefined`/`null` are `Option`s;
`state`, `targetStateRef` and `lastStateRef` start as `some initialState` but a
malformed update can store `undefined` in them. -/
structure Binding (T : Type) where
  entityId : String
  isOwner : Bool
  broadcastRate : ℚ
  enableInterpolation : Bool
  state : Option T
  targetStateRef : Option T
  lastStateRef : Option T
  lastUpdateTsRef : ℚ
  pendingUpdateRef : Option T

/-- The inbound subscriber `onEntityUpdate` (`hooks/useNetworkEntity.ts` lines
52-66).  The guard reads `data.event === 'entity:update' &&
data.payload.entityId === entityId`; reading `data.payload.entityId` when
`payload` is absent throws a TypeError (modelled as `Except.error`), while an
absent `entityId` simply fails the strict equality.  On a match: an Owner does
nothing; an Observer with interpolation enabled records the visual state in
`lastStateRef`, the incoming `payload.state` in `targetStateRef` and the
current time in `lastUpdateTsRef`; an Observer without interpolation applies
`payload.state` directly with `setState`. -/
def onEntityUpdate {T : Type} (b : Binding T) (now : ℚ) (data : CustomEvent T) :
    Except String (Binding T) :=
  if data.event = "entity:update" then
    match data.payload with
    | none => .error "TypeError: Cannot read properties of undefined (reading entityId)"
    | some p =>
      if p.entityId = some b.entityId then
        if b.isOwner then .ok b
        else if b.enableInterpolation then
          .ok { b with
                  lastStateRef := b.state
                  targetStateRef := p.state
                  lastUpdateTsRef := now }
        else
          .ok { b with state := p.state }
      else .ok b
  else .ok b

/-- The argument of `setNetworkState`: `newState: T | ((prev: T) => T)`.  The
updater-function case receives the previous React state, which JavaScript may
hand over as `undefined` after a malformed update. -/
inductive Upd (T : Type) where
  | val (v : T)
  | fn (f : Option T → T)

/-- `typeof newState === 'function' ? newState(prev) : newState`. -/
def resolveUpd {T : Type} (u : Upd T) (prev : Option T) : T :=
  match u with
  | .val v => v
  | .fn f => f prev

/-- `setNetworkState` (`hooks/useNetworkEntity.ts` lines 141-149): resolves the
update against the previous state, always stores the resolved value as the
locally-visible state, and for an Owner additionally stages it in
`pendingUpdateRef`, overwriting any unsent pending value. -/
def setNetworkState {T : Type} (b : Binding T) (u : Upd T) : Binding T :=
  let resolved := resolveUpd u b.state
  { b with
      state := some resolved
      pendingUpdateRef := if b.isOwner then some resolved else b.pendingUpdateRef }

/-- One outbound
`client.emitToRoom(currentRoom.roomId, 'entity:update', { entityId, state })`
call made by the broadcast interval. -/
structure OutMsg (T : Type) where
  roomId : String
  event : String
  entityId : String
  state : T

/-- One firing of the Owner broadcast interval (`hooks/useNetworkEntity.ts`
lines 75-93).  The effect is installed only when
`isOwner && isConnected && currentRoom`; an installed tick emits the pending
update, if any, to the room and clears `pendingUpdateRef`, and emits nothing
when the buffer is empty.  Returns the binding after the tick together with
the list of messages emitted by it. -/
def broadcastTick {T : Type} (b : Binding T) (isConnected : Bool)
    (currentRoom : Option String) : Binding T × List (OutMsg T) :=
  match currentRoom with
  | some room =>
    if b.isOwner && isConnected then
      match b.pendingUpdateRef with
      | some v =>
          ({ b with pendingUpdateRef := none },
           [⟨room, "entity:update", b.entityId, v⟩])
      | none => (b, [])
    else (b, [])
  | none => (b, [])

/-- `interpolateState` as invoked from the render loop, where either argument
may be `undefined` after a malformed inbound update: `{ ...undefined }` yields
`{}` and `for...in` over `undefined` performs no iterations, but reading
`currentState[key]` with `currentState === undefined` — reached exactly when
`targetState[key]` is numeric, since `&&` short-circuits — throws a
TypeError. -/
def jsInterpolateState (current target : Option EntityState) (t : ℚ) :
    Except String EntityState :=
  match target with
  | none => .ok (match current with | some cs => cs | none => [])
  | some ts =>
    match current with
    | some cs => .ok (interpolateState cs ts t)
    | none =>
      ts.foldlM
        (fun result kv =>
          match kv.2 with
          | .num _ => .error "TypeError: Cannot read properties of undefined"
          | .other tag => .ok (setField result kv.1 (.other tag)))
        ([] : EntityState)

/-- One frame of the Observer render loop `animate` (`hooks/useNetworkEntity.ts`
lines 96-136).  The effect is installed only for an Observer with interpolation
enabled (`if (isOwner || !enableInterpolation) return`).  A frame computes
`t = (now - lastUpdateTsRef) / (broadcastRate * 1.5)` clamped to at most `1`;
while `t < 1` it sets the state to
`interpolateState(lastStateRef, targetStateRef, t)`, and once `t` reaches `1`
it sets the state to `targetStateRef` itself. -/
def animate (b : Binding EntityState) (now : ℚ) :
    Except String (Binding EntityState) :=
  if b.isOwner || !b.enableInterpolation then .ok b
  else
    let buffer := b.broadcastRate * (3 / 2 : ℚ)
    let t0 := (now - b.lastUpdateTsRef) / buffer
    let t := if 1 < t0 then 1 else t0
    if t < 1 then
      (jsInterpolateState b.lastStateRef b.targetStateRef t).map
        (fun ns => { b with state := some ns })
    else
      .ok { b with state := b.targetStateRef }

/-- A sample Observer binding over plain rational states. -/
def sampleObserver : Binding ℚ :=
  ⟨"e1", false, 100, true, some 0, some 0, some 0, 0, none⟩

/-- A sample Owner binding over plain rational states. -/
def sampleOwner : Binding ℚ :=
  ⟨"e1", true, 100, true, some 0, some 0, some 0, 0, none⟩

/-- A sample Observer binding bound to entityId `"B"`. -/
def sampleObserverB : Binding ℚ :=
  ⟨"B", false, 100, true, some 0, some 0, some 0, 0, none⟩

/-- A sample Observer binding over `EntityState` states. -/
def sampleObserverState : Binding EntityState :=
  ⟨"e1", false, 100, true, some [("x", .num 0)], some [("x", .num 0)],
   some [("x", .num 0)], 0, none⟩

/-- A malformed inbound event: the payload object itself is missing. -/
def evNoPayload : CustomEvent ℚ := ⟨"room1", "u2", "entity:update", none, 0⟩

/-- A malformed inbound event: the payload lacks its `entityId` field. -/
def evNoEntityId : CustomEvent ℚ :=
  ⟨"room1", "u2", "entity:update", some ⟨none, some 3⟩, 0⟩

/-- A malformed inbound event: the payload matches entityId `"e1"` but lacks
its `state` field. -/
def evNoState : CustomEvent ℚ :=
  ⟨"room1", "u2", "entity:update", some ⟨some "e1", none⟩, 0⟩

/-- A well-formed inbound event for entityId `"e1"` carrying state `3`. -/
def evSelf : CustomEvent ℚ :=
  ⟨"room1", "u2", "entity:update", some ⟨some "e1", some 3⟩, 0⟩

/-- A well-formed inbound event tagged with entityId `"A"`. -/
def evTaggedA : CustomEvent ℚ :=
  ⟨"room1", "u2", "entity:update", some ⟨some "A", some 3⟩, 0⟩

/-- A well-formed inbound event for entityId `"e1"` carrying an
`EntityState`. -/
def evTarget : CustomEvent EntityState :=
  ⟨"room1", "u2", "entity:update", some ⟨some "e1", some [("x", Value.num 10)]⟩, 0⟩

/-! ### Helper lemmas about JS object reads and writes -/

theorem getField_setField (s : EntityState) (k k' : String) (v : Value) :
    getField (setField s k v) k' = if k = k' then some v else getField s k' := by
  induction s with
  | nil => simp [setField, getField]
  | cons hd tl ih =>
    obtain ⟨k₀, v₀⟩ := hd
    by_cases h₀ : k₀ = k
    · subst h₀
      simp only [setField, if_pos rfl, getField]
      by_cases h1 : k₀ = k' <;> simp [h1]
    · simp only [setField, if_neg h₀, getField, ih]
      by_cases h1 : k₀ = k'
      · subst h1
        have hne : ¬ k = k₀ := fun h => h₀ h.symm
        simp [hne]
      · simp [h1]

theorem getField_eq_none_iff (s : EntityState) (k : String) :
    getField s k = none ↔ k ∉ s.map Prod.fst := by
  induction s with
  | nil => simp [getField]
  | cons hd tl ih =>
    obtain ⟨k₀, v₀⟩ := hd
    by_cases h₀ : k₀ = k
    · subst h₀; simp [getField]
    · simp only [getField, if_neg h₀, ih, List.map_cons, List.mem_cons, not_or]
      exact ⟨fun h => ⟨fun hh => h₀ hh.symm, h⟩, fun h => h.2⟩

theorem getField_interpFold_not_mem (cs : EntityState) (t : ℚ)
    (ts : List (String × Value)) (acc : EntityState) (k : String)
    (hk : k ∉ ts.map Prod.fst) :
    getField
      (ts.foldl
        (fun result kv => setField result kv.1 (snapOrLerp (getField cs kv.1) kv.2 t))
        acc) k
      = getField acc k := by
  induction ts generalizing acc with
  | nil => rfl
  | cons hd tl ih =>
    simp only [List.map_cons, List.mem_cons, not_or] at hk
    simp only [List.foldl_cons]
    rw [ih _ hk.2, getField_setField]
    exact if_neg (fun h => hk.1 h.symm)

theorem getField_interpFold_mem (cs : EntityState) (t : ℚ)
    (ts : List (String × Value)) (acc : EntityState) (k : String) (tv : Value)
    (hnd : (ts.map Prod.fst).Nodup) (hmem : (k, tv) ∈ ts) :
    getField
      (ts.foldl
        (fun result kv => setField result kv.1 (snapOrLerp (getField cs kv.1) kv.2 t))
        acc) k
      = some (snapOrLerp (getField cs k) tv t) := by
  induction ts generalizing acc with
  | nil => cases hmem
  | cons hd tl ih =>
    simp only [List.map_cons, List.nodup_cons] at hnd
    simp only [List.foldl_cons]
    rcases List.mem_cons.mp hmem with heq | hmem'
    · subst heq
      rw [getField_interpFold_not_mem cs t tl _ k hnd.1, getField_setField]
      simp
    · exact ih _ hnd.2 hmem'

theorem getField_interpFold_ne_none_iff (cs : EntityState) (t : ℚ)
    (ts : List (String × Value)) (acc : EntityState) (k : String) :
    getField
      (ts.foldl
        (fun result kv => setField result kv.1 (snapOrLerp (getField cs kv.1) kv.2 t))
        acc) k ≠ none
      ↔ getField acc k ≠ none ∨ k ∈ ts.map Prod.fst := by
  induction ts generalizing acc with
  | nil => simp
  | cons hd tl ih =>
    simp only [List.foldl_cons, List.map_cons, List.mem_cons]
    rw [ih]
    rw [getField_setField]
    by_cases h : hd.1 = k
    · simp [h]
    · have hne : ¬ k = hd.1 := fun hh => h hh.symm
      simp [h, hne]

theorem snapOrLerp_of_not_bothNumeric (cv : Option Value) (tv : Value) (t : ℚ)
    (h : bothNumeric cv tv = false) : snapOrLerp cv tv t = tv := by
  cases tv with
  | num b =>
    cases cv with
    | none => rfl
    | some v =>
      cases v with
      | num a => simp [bothNumeric] at h
      | other tag => rfl
  | other tag =>
    cases cv with
    | none => rfl
    | some v => cases v <;> rfl

/-! ### Claim theorems -/

/-- **C5**: for all numeric `a`, `b` and every `t ∈ [0,1]`, the interpolator's
per-field computation satisfies `interpolate(a,b,t) = a + (b-a)*t`, and in
particular `interpolate(a,b,0) = a` and `interpolate(a,b,1) = b`. -/
theorem lerp_linear (a b t : ℚ) (_h0 : 0 ≤ t) (_h1 : t ≤ 1) :
    lerp a b t = a + (b - a) * t
    ∧ lerp a b 0 = a
    ∧ lerp a b 1 = b
    ∧ snapOrLerp (some (Value.num a)) (Value.num b) t = Value.num (a + (b - a) * t) := by
  refine ⟨by unfold lerp; ring, by unfold lerp; ring, by unfold lerp; ring, ?_⟩
  show Value.num (lerp a b t) = Value.num (a + (b - a) * t)
  congr 1
  unfold lerp; ring

/-- Witness for `lerp_linear` at `a = 2`, `b = 6`, `t = 1/4`. -/
theorem lerp_linear_witness :
    (0 : ℚ) ≤ 1 / 4 ∧ (1 : ℚ) / 4 ≤ 1
    ∧ (lerp 2 6 (1 / 4) = 2 + (6 - 2) * (1 / 4)
       ∧ lerp 2 6 0 = 2
       ∧ lerp 2 6 1 = 6
       ∧ snapOrLerp (some (Value.num 2)) (Value.num 6) (1 / 4)
           = Value.num (2 + (6 - 2) * (1 / 4))) :=
  ⟨by norm_num, by norm_num, lerp_linear 2 6 (1 / 4) (by norm_num) (by norm_num)⟩

/-- **C10**: for all numeric `a`, `b` and every `t ∈ [0,1]`, `lerp(a,b,t)` lies
between `min a b` and `max a b` inclusive, and `lerp(a,a,t) = a`. -/
theorem lerp_bounded (a b t : ℚ) (h0 : 0 ≤ t) (h1 : t ≤ 1) :
    min a b ≤ lerp a b t ∧ lerp a b t ≤ max a b ∧ lerp a a t = a := by
  unfold lerp
  refine ⟨?_, ?_, by ring⟩
  · rcases le_total a b with hab | hab
    · rw [min_eq_left hab]; nlinarith
    · rw [min_eq_right hab]; nlinarith
  · rcases le_total a b with hab | hab
    · rw [max_eq_right hab]; nlinarith
    · rw [max_eq_left hab]; nlinarith

/-- Witness for `lerp_bounded` at `a = 3`, `b = -1`, `t = 1/2`. -/
theorem lerp_bounded_witness :
    (0 : ℚ) ≤ 1 / 2 ∧ (1 : ℚ) / 2 ≤ 1
    ∧ (min (3 : ℚ) (-1) ≤ lerp 3 (-1) (1 / 2)
       ∧ lerp 3 (-1) (1 / 2) ≤ max (3 : ℚ) (-1)
       ∧ lerp 3 3 (1 / 2) = 3) :=
  ⟨by norm_num, by norm_num, lerp_bounded 3 (-1) (1 / 2) (by norm_num) (by norm_num)⟩

/-- **C6**: for every field of `targetState` such that `currentState[field]`
and `targetState[field]` are not both numeric, and for every `t`, the result of
`interpolateState` assigns that field exactly `targetState`'s value. -/
theorem interpolateState_snaps_non_numeric (cs ts : EntityState) (t : ℚ)
    (k : String) (tv : Value) (hnd : WFState ts) (hmem : (k, tv) ∈ ts)
    (hsnap : bothNumeric (getField cs k) tv = false) :
    getField (interpolateState cs ts t) k = some tv := by
  unfold interpolateState
  rw [getField_interpFold_mem cs t ts cs k tv hnd hmem,
      snapOrLerp_of_not_bothNumeric _ _ _ hsnap]

/-- Witness for `interpolateState_snaps_non_numeric`: a field holding a string
in the target and a number in the current state is snapped at `t = 1/3`. -/
theorem interpolateState_snaps_non_numeric_witness :
    WFState [("name", Value.other "bob"), ("x", Value.num 4)]
    ∧ ("name", Value.other "bob") ∈
        [("name", Value.other "bob"), ("x", Value.num 4)]
    ∧ bothNumeric (getField [("name", Value.num 7)] "name") (Value.other "bob") = false
    ∧ getField
        (interpolateState [("name", Value.num 7)]
          [("name", Value.other "bob"), ("x", Value.num 4)] (1 / 3)) "name"
        = some (Value.other "bob") :=
  ⟨by decide, by decide, by decide,
   interpolateState_snaps_non_numeric [("name", Value.num 7)]
     [("name", Value.other "bob"), ("x", Value.num 4)] (1 / 3) "name"
     (Value.other "bob") (by decide) (by decide) (by decide)⟩

/-- **C1** (counterexample): it is not the case that every field present in
the result of `interpolateState(currentState, targetState, t)` is a field of
`targetState` — with `currentState = {a: 1}` and `targetState = {}` the result
still has the field `a`, because the result is seeded with
`{ ...currentState }`. -/
theorem interpolateState_keys_subset_counterexample :
    ¬ ∀ (cs ts : EntityState) (t : ℚ) (k : String),
        getField (interpolateState cs ts t) k ≠ none → getField ts k ≠ none := by
  intro h
  exact h [("a", Value.num 1)] [] 0 "a" (by decide) (by decide)

/-- **C1** (amended): every field of `targetState` is present in the result of
`interpolateState`, but a field of `currentState` absent from `targetState` is
also present, carried over with `currentState`'s value unchanged: the result's
fields are the union of both states' fields, because the result is seeded with
a copy of `currentState` before `targetState`'s fields are written over it. -/
theorem interpolateState_keys_union (cs ts : EntityState) (t : ℚ) (k : String) :
    (getField ts k = none → getField (interpolateState cs ts t) k = getField cs k)
    ∧ (getField (interpolateState cs ts t) k = none
        ↔ getField cs k = none ∧ getField ts k = none) := by
  constructor
  · intro hk
    unfold interpolateState
    exact getField_interpFold_not_mem cs t ts cs k ((getField_eq_none_iff ts k).mp hk)
  · unfold interpolateState
    have h := getField_interpFold_ne_none_iff cs t ts cs k
    rw [getField_eq_none_iff ts k]
    constructor
    · intro hnone
      constructor
      · by_contra h1
        exact (h.mpr (Or.inl h1)) hnone
      · intro hmem
        exact (h.mpr (Or.inr hmem)) hnone
    · intro ⟨h1, h2⟩
      by_contra hne
      rcases h.mp hne with hc | hc
      · exact hc h1
      · exact h2 hc

/-- Witness for `interpolateState_keys_union`: with `targetState` lacking the
field `a`, the result keeps `currentState`'s value for `a`; the field `c`,
absent from both, is absent from the result. -/
theorem interpolateState_keys_union_witness :
    getField [("b", Value.num 2)] "a" = none
    ∧ getField
        (interpolateState [("a", Value.num 1)] [("b", Value.num 2)] (1 / 2)) "a"
        = getField [("a", Value.num 1)] "a"
    ∧ (getField
         (interpolateState [("a", Value.num 1)] [("b", Value.num 2)] (1 / 2)) "c"
         = none
       ↔ getField [("a", Value.num 1)] "c" = none
         ∧ getField [("b", Value.num 2)] "c" = none) :=
  ⟨by decide,
   (interpolateState_keys_union [("a", Value.num 1)] [("b", Value.num 2)]
     (1 / 2) "a").1 (by decide),
   (interpolateState_keys_union [("a", Value.num 1)] [("b", Value.num 2)]
     (1 / 2) "c").2⟩

/-- **C2** (counterexample): a shape-invalid inbound `entity:update` event is
not always treated like a non-matching event.  First conjunct: the universal
claim is false — for the Observer `sampleObserver` and the event `evNoPayload`
(payload object missing) the handler does not return the binding unchanged.
Second and third conjuncts trace the two divergences concretely: a missing
payload throws a TypeError (`Except.error`), and a matching payload with a
missing `state` field mutates the interpolation cursor (`targetStateRef`
becomes `undefined`, `lastStateRef` and `lastUpdateTsRef` are rewritten). -/
theorem onEntityUpdate_malformed_counterexample :
    (¬ ∀ (T : Type) (b : Binding T) (now : ℚ) (ev : CustomEvent T),
        (ev.payload = none
          ∨ ∃ p, ev.payload = some p ∧ (p.entityId = none ∨ p.state = none)) →
        onEntityUpdate b now ev = .ok b)
    ∧ (onEntityUpdate sampleObserver 5 evNoPayload).isOk = false
    ∧ onEntityUpdate sampleObserver 5 evNoState
        = .ok { sampleObserver with
                  lastStateRef := some 0
                  targetStateRef := none
                  lastUpdateTsRef := 5 } := by
  refine ⟨?_, ?_, ?_⟩
  · intro h
    have h2 := h ℚ sampleObserver 5 evNoPayload (Or.inl rfl)
    simp [onEntityUpdate, evNoPayload, sampleObserver] at h2
  · rfl
  · rfl

/-- **C2** (amended): an inbound `entity:update` event whose payload object is
present but lacks the `entityId` field is treated exactly like a non-matching
event — the binding (visible state and interpolation cursor) is unchanged and
no exception propagates — for every role and interpolation setting; an event
whose payload object is entirely missing instead makes the handler throw a
TypeError to its caller. -/
theorem onEntityUpdate_malformed_amended (T : Type) (b : Binding T) (now : ℚ)
    (ev : CustomEvent T) (p : EntityUpdatePayload T) :
    (ev.payload = some p → p.entityId = none → onEntityUpdate b now ev = .ok b)
    ∧ (ev.event = "entity:update" → ev.payload = none →
        ∃ msg, onEntityUpdate b now ev = .error msg) := by
  constructor
  · intro hp hid
    unfold onEntityUpdate
    by_cases hev : ev.event = "entity:update"
    · simp [hev, hp, hid]
    · simp [hev]
  · intro hev hp
    unfold onEntityUpdate
    simp [hev, hp]

/-- Witness for `onEntityUpdate_malformed_amended`: a payload without
`entityId` is ignored, a missing payload object throws. -/
theorem onEntityUpdate_malformed_amended_witness :
    onEntityUpdate sampleObserver 5 evNoEntityId = .ok sampleObserver
    ∧ ∃ msg, onEntityUpdate sampleObserver 5 evNoPayload = .error msg :=
  ⟨(onEntityUpdate_malformed_amended ℚ sampleObserver 5 evNoEntityId
      ⟨none, some 3⟩).1 rfl rfl,
   (onEntityUpdate_malformed_amended ℚ sampleObserver 5 evNoPayload
      ⟨none, some 3⟩).2 rfl rfl⟩

/-- **C7**: an Owner binding processing an inbound `entity:update` message
carrying its own entityId is left completely unchanged — visible state and
interpolation cursor included; self-echo is ignored. -/
theorem onEntityUpdate_owner_ignores_self (T : Type) (b : Binding T) (now : ℚ)
    (ev : CustomEvent T) (p : EntityUpdatePayload T) (hown : b.isOwner = true)
    (hp : ev.payload = some p) (hid : p.entityId = some b.entityId) :
    onEntityUpdate b now ev = .ok b := by
  unfold onEntityUpdate
  by_cases hev : ev.event = "entity:update"
  · simp [hev, hp, hid, hown]
  · simp [hev]

/-- Witness for `onEntityUpdate_owner_ignores_self`: the Owner of `"e1"`
ignores an inbound update for `"e1"`. -/
theorem onEntityUpdate_owner_ignores_self_witness :
    sampleOwner.isOwner = true
    ∧ evSelf.payload = some ⟨some "e1", some 3⟩
    ∧ onEntityUpdate sampleOwner 5 evSelf = .ok sampleOwner :=
  ⟨rfl, rfl,
   onEntityUpdate_owner_ignores_self ℚ sampleOwner 5 evSelf
     ⟨some "e1", some 3⟩ rfl rfl rfl⟩

/-- **C8**: an inbound `entity:update` message tagged with entityId `a` leaves
a binding bound to a different entityId completely unchanged — visible state,
`lastStateRef`, `targetStateRef` and arrival timestamp included. -/
theorem onEntityUpdate_entity_isolation (T : Type) (b : Binding T) (now : ℚ)
    (ev : CustomEvent T) (p : EntityUpdatePayload T) (a : String)
    (hp : ev.payload = some p) (hid : p.entityId = some a)
    (hne : a ≠ b.entityId) :
    onEntityUpdate b now ev = .ok b := by
  unfold onEntityUpdate
  by_cases hev : ev.event = "entity:update"
  · simp [hev, hp, hid, hne]
  · simp [hev]

/-- Witness for `onEntityUpdate_entity_isolation`: an update tagged `"A"` does
not mutate the binding for `"B"`. -/
theorem onEntityUpdate_entity_isolation_witness :
    evTaggedA.payload = some ⟨some "A", some 3⟩
    ∧ "A" ≠ sampleObserverB.entityId
    ∧ onEntityUpdate sampleObserverB 5 evTaggedA = .ok sampleObserverB :=
  ⟨rfl, by decide,
   onEntityUpdate_entity_isolation ℚ sampleObserverB 5 evTaggedA
     ⟨some "A", some 3⟩ "A" rfl rfl (by decide)⟩

theorem broadcastTick_fst_isOwner {T : Type} (b : Binding T) (c : Bool)
    (room : Option String) : (broadcastTick b c room).1.isOwner = b.isOwner := by
  unfold broadcastTick
  rcases room with _ | r
  · rfl
  · by_cases h : b.isOwner && c
    · rcases hp : b.pendingUpdateRef with _ | v <;> simp [h, hp]
    · simp [h]

theorem broadcastTick_fst_entityId {T : Type} (b : Binding T) (c : Bool)
    (room : Option String) : (broadcastTick b c room).1.entityId = b.entityId := by
  unfold broadcastTick
  rcases room with _ | r
  · rfl
  · by_cases h : b.isOwner && c
    · rcases hp : b.pendingUpdateRef with _ | v <;> simp [h, hp]
    · simp [h]

theorem foldl_setNetworkState_isOwner {T : Type} (us : List (Upd T))
    (b : Binding T) : (us.foldl setNetworkState b).isOwner = b.isOwner := by
  induction us generalizing b with
  | nil => rfl
  | cons u tl ih => rw [List.foldl_cons, ih]; rfl

theorem foldl_setNetworkState_entityId {T : Type} (us : List (Upd T))
    (b : Binding T) : (us.foldl setNetworkState b).entityId = b.entityId := by
  induction us generalizing b with
  | nil => rfl
  | cons u tl ih => rw [List.foldl_cons, ih]; rfl

/-- **C3**: for an Owner binding, `N ≥ 1` calls to `setNetworkState` strictly
between two consecutive broadcast ticks (here `us ++ [u]`, so the last call is
`u`) make the second tick emit exactly one outbound message, and its state is
the value the last call resolved against the then-current state. -/
theorem broadcast_coalesces_to_last (T : Type) (b : Binding T) (room : String)
    (us : List (Upd T)) (u : Upd T) (hown : b.isOwner = true) :
    (broadcastTick ((us ++ [u]).foldl setNetworkState
        (broadcastTick b true (some room)).1) true (some room)).2
      = [⟨room, "entity:update", b.entityId,
          resolveUpd u
            ((us.foldl setNetworkState (broadcastTick b true (some room)).1).state)⟩] := by
  rw [List.foldl_append]
  set b1 := (broadcastTick b true (some room)).1 with hb1
  set b2 := us.foldl setNetworkState b1 with hb2
  have hown2 : b2.isOwner = true := by
    rw [hb2, foldl_setNetworkState_isOwner, hb1, broadcastTick_fst_isOwner, hown]
  have hid2 : b2.entityId = b.entityId := by
    rw [hb2, foldl_setNetworkState_entityId, hb1, broadcastTick_fst_entityId]
  simp only [List.foldl_cons, List.foldl_nil]
  unfold setNetworkState broadcastTick
  simp [hown2, hid2]

/-- Witness for `broadcast_coalesces_to_last`: two mutations (to `1` then `2`)
between two ticks of the Owner `sampleOwner` emit a single message carrying
`2`. -/
theorem broadcast_coalesces_to_last_witness :
    sampleOwner.isOwner = true
    ∧ (broadcastTick (([Upd.val (1 : ℚ)] ++ [Upd.val 2]).foldl setNetworkState
          (broadcastTick sampleOwner true (some "room1")).1) true (some "room1")).2
        = [⟨"room1", "entity:update", sampleOwner.entityId,
            resolveUpd (Upd.val 2)
              (([Upd.val (1 : ℚ)].foldl setNetworkState
                  (broadcastTick sampleOwner true (some "room1")).1).state)⟩] :=
  ⟨rfl, broadcast_coalesces_to_last ℚ sampleOwner "room1" [Upd.val (1 : ℚ)] (Upd.val 2) rfl⟩

/-- **C9**: a broadcast tick whose pending buffer is empty emits no outbound
message, and therefore the second of two consecutive ticks with no
`setNetworkState` call in between emits nothing (the first tick always leaves
the buffer empty). -/
theorem broadcastTick_silent_when_empty (T : Type) (b : Binding T) (c : Bool)
    (room : Option String) :
    (b.pendingUpdateRef = none → (broadcastTick b c room).2 = [])
    ∧ (broadcastTick (broadcastTick b c room).1 c room).2 = [] := by
  constructor
  · intro hp
    unfold broadcastTick
    rcases room with _ | r
    · rfl
    · by_cases h : b.isOwner && c <;> simp [h, hp]
  · unfold broadcastTick
    rcases room with _ | r
    · rfl
    · by_cases h : b.isOwner && c
      · rcases hp : b.pendingUpdateRef with _ | v <;> simp [h, hp]
      · simp [h]

/-- Witness for `broadcastTick_silent_when_empty`: the Owner `sampleOwner`
has an empty pending buffer, and a tick emits nothing; a second consecutive
tick also emits nothing. -/
theorem broadcastTick_silent_when_empty_witness :
    sampleOwner.pendingUpdateRef = none
    ∧ (broadcastTick sampleOwner true (some "room1")).2 = []
    ∧ (broadcastTick (broadcastTick sampleOwner true (some "room1")).1 true
        (some "room1")).2 = [] :=
  ⟨rfl,
   (broadcastTick_silent_when_empty ℚ sampleOwner true (some "room1")).1 rfl,
   (broadcastTick_silent_when_empty ℚ sampleOwner true (some "room1")).2⟩

theorem animate_at_target (b : Binding EntityState) (now : ℚ)
    (hobs : b.isOwner = false) (hinterp : b.enableInterpolation = true)
    (hrate : 0 < b.broadcastRate)
    (hlate : b.lastUpdateTsRef + b.broadcastRate * (3 / 2) ≤ now) :
    animate b now = .ok { b with state := b.targetStateRef } := by
  have hbuf : 0 < b.broadcastRate * (3 / 2 : ℚ) := by positivity
  have h1 : (1 : ℚ) ≤ (now - b.lastUpdateTsRef) / (b.broadcastRate * (3 / 2)) := by
    rw [le_div_iff₀ hbuf]
    linarith
  unfold animate
  rw [hobs, hinterp]
  simp only [Bool.not_true, Bool.or_false, Bool.false_or, if_false]
  have hnot : ¬ ((if 1 < (now - b.lastUpdateTsRef) / (b.broadcastRate * (3 / 2))
      then (1 : ℚ)
      else (now - b.lastUpdateTsRef) / (b.broadcastRate * (3 / 2))) < 1) := by
    by_cases hgt : 1 < (now - b.lastUpdateTsRef) / (b.broadcastRate * (3 / 2))
    · simp [hgt]
    · simp only [if_neg hgt]
      exact not_lt.mpr h1
  rw [if_neg hnot]
  simp

/-- **C4**: an Observer binding with interpolation enabled that receives a
single inbound update carrying target state `ts` at time `T0` has its
locally-visible state set by the render tick to exactly `ts` (not an
interpolated approximation) at every sample taken at or after
`T0 + 1.5 * broadcastRate`, with no overshoot. -/
theorem observer_converges (b : Binding EntityState) (ev : CustomEvent EntityState)
    (p : EntityUpdatePayload EntityState) (ts : EntityState) (T0 now : ℚ)
    (hobs : b.isOwner = false) (hinterp : b.enableInterpolation = true)
    (hrate : 0 < b.broadcastRate)
    (hev : ev.event = "entity:update") (hp : ev.payload = some p)
    (hid : p.entityId = some b.entityId) (hstate : p.state = some ts)
    (hlate : T0 + b.broadcastRate * (3 / 2) ≤ now) :
    ∃ b', onEntityUpdate b T0 ev = .ok b'
      ∧ animate b' now = .ok { b' with state := some ts } := by
  refine ⟨{ b with
              lastStateRef := b.state
              targetStateRef := p.state
              lastUpdateTsRef := T0 }, ?_, ?_⟩
  · unfold onEntityUpdate
    simp [hev, hp, hid, hobs, hinterp]
  · have h := animate_at_target
      { b with
          lastStateRef := b.state
          targetStateRef := p.state
          lastUpdateTsRef := T0 }
      now hobs hinterp hrate hlate
    rw [h]
    simp [hstate]

/-- Witness for `observer_converges`: `sampleObserverState` (rate `100`)
receives `{x: 10}` at `T0 = 0` and samples at `now = 150 = 1.5 * 100`. -/
theorem observer_converges_witness :
    sampleObserverState.isOwner = false
    ∧ sampleObserverState.enableInterpolation = true
    ∧ (0 : ℚ) < sampleObserverState.broadcastRate
    ∧ evTarget.event = "entity:update"
    ∧ evTarget.payload = some ⟨some "e1", some [("x", Value.num 10)]⟩
    ∧ (0 : ℚ) + sampleObserverState.broadcastRate * (3 / 2) ≤ 150
    ∧ ∃ b', onEntityUpdate sampleObserverState 0 evTarget = .ok b'
        ∧ animate b' 150 = .ok { b' with state := some [("x", Value.num 10)] } :=
  ⟨rfl, rfl, by norm_num [sampleObserverState], rfl, rfl,
   by norm_num [sampleObserverState],
   observer_converges sampleObserverState evTarget
     ⟨some "e1", some [("x", Value.num 10)]⟩ [("x", Value.num 10)] 0 150
     rfl rfl (by norm_num [sampleObserverState]) rfl rfl rfl rfl
     (by norm_num [sampleObserverState])⟩

end GameEngineSocket
